import Mathlib

/-!
Verification of the AugmentOS TPA session SDK
(augmentos_cloud/packages/sdk/src/tpa/session/index.ts) and of the cloud
user model (cloud/src/models/user.model.ts), as a shallow embedding.

Stream types are modelled as strings (ExtendedStreamType is a string union
in the source).  A JavaScript Set is modelled as an insertion-ordered,
duplicate-free list: Set.add appends when absent, Set.delete removes.
-/

namespace AugmentOS

/-- JavaScript Set.add on an insertion-ordered list: appends the element
when absent, otherwise leaves the list unchanged. -/
def SetAdd (s : List String) (x : String) : List String :=
  if x ∈ s then s else s ++ [x]

/-- JavaScript Set.delete: removes the element. -/
def SetDelete (s : List String) (x : String) : List String :=
  s.filter (fun y => y ≠ x)

/-- JavaScript Set.has membership test. -/
def SetHas (s : List String) (x : String) : Bool :=
  x ∈ s

namespace TpaSession

/-- TpaSession.subscribe: this.subscriptions.add(type).  The subsequent
updateSubscriptions call only sends the current set to the cloud and does
not change the set. -/
def subscribe (subs : List String) (t : String) : List String :=
  SetAdd subs t

/-- TpaSession.unsubscribe: this.subscriptions.delete(type). -/
def unsubscribe (subs : List String) (t : String) : List String :=
  SetDelete subs t

/-- Observable outcome of one call to TpaSession.handleReconnection:
the backoff delay scheduled (none when no timer is set), the value of
reconnectAttempts afterwards, and whether a permanent disconnected event
(code 4000, permanent flag) was emitted. -/
structure ReconnectResult where
  scheduledDelay : Option Nat
  attemptsAfter : Nat
  permanentEmitted : Bool
  deriving Repr, DecidableEq

/-- TpaSession.handleReconnection: returns immediately when autoReconnect
is off or no sessionId is set; when reconnectAttempts has reached
maxAttempts it emits the permanent disconnected event and schedules no
timer; otherwise it schedules a timer of baseDelay * 2 ^ reconnectAttempts,
increments reconnectAttempts and awaits connect, resetting the counter on
success and, on failure, emitting the permanent event exactly when the
incremented counter has reached maxAttempts. -/
def handleReconnection (autoReconnect hasSessionId : Bool)
    (maxAttempts baseDelay attempts : Nat) (connectOk : Bool) : ReconnectResult :=
  if !autoReconnect || !hasSessionId then
    { scheduledDelay := none, attemptsAfter := attempts, permanentEmitted := false }
  else if maxAttempts ≤ attempts then
    { scheduledDelay := none, attemptsAfter := attempts, permanentEmitted := true }
  else
    let delay := baseDelay * 2 ^ attempts
    let a := attempts + 1
    if connectOk then
      { scheduledDelay := some delay, attemptsAfter := 0, permanentEmitted := false }
    else
      { scheduledDelay := some delay, attemptsAfter := a,
        permanentEmitted := decide (maxAttempts ≤ a) }

/-- A run of n consecutive handleReconnection calls in which every connect
fails (each abnormal close re-enters the close handler), starting from the
given reconnectAttempts value: collects the scheduled delays in order and
returns the final counter. -/
def runFailedReconnections (maxAttempts baseDelay : Nat) :
    Nat → Nat → List Nat × Nat
  | 0, attempts => ([], attempts)
  | n + 1, attempts =>
      let r := handleReconnection true true maxAttempts baseDelay attempts false
      let rest := runFailedReconnections maxAttempts baseDelay n r.attemptsAfter
      (r.scheduledDelay.toList ++ rest.1, rest.2)

/-- Modelled from the spec: createTranscriptionStream from the sdk types
package is absent from src/; the spec writes language-parameterized
transcription streams as transcription:en-US, a key distinct from the base
type. -/
def createTranscriptionStream (lang : String) : String :=
  "transcription:" ++ lang

/-- Modelled from the spec: createTranslationStream from the sdk types
package is absent from src/; the spec writes translation streams as
translation:es-ES:en-US. -/
def createTranslationStream (sourceLang targetLang : String) : String :=
  "translation:" ++ sourceLang ++ ":" ++ targetLang

/-- Language fields of a data_stream payload (TranscriptionData and
TranslationData carry transcribeLanguage / translateLanguage). -/
structure DataStreamPayload where
  transcribeLanguage : Option String := none
  translateLanguage : Option String := none
  deriving Repr, DecidableEq

/-- A data_stream message from the cloud: a streamType tag and a payload. -/
structure DataStreamMessage where
  streamType : String
  data : DataStreamPayload
  deriving Repr, DecidableEq

/-- handleMessage, data_stream branch: the effective stream key under which
the event is emitted; transcription and translation payloads whose language
fields are truthy (present and non-empty, the if-checks of the source) are
re-keyed to the language-parameterized stream, otherwise the base stream
key is kept. -/
def effectiveStreamType (m : DataStreamMessage) : String :=
  if m.streamType = "transcription" then
    match m.data.transcribeLanguage with
    | some lang => if lang = "" then m.streamType else createTranscriptionStream lang
    | none => m.streamType
  else if m.streamType = "translation" then
    match m.data.transcribeLanguage, m.data.translateLanguage with
    | some l1, some l2 =>
        if l1 = "" ∨ l2 = "" then m.streamType else createTranslationStream l1 l2
    | _, _ => m.streamType
  else m.streamType

/-- Structured data of a disconnected event emitted to TPA handlers. -/
structure DisconnectInfo where
  code : Nat
  reason : String
  wasClean : Bool
  permanent : Bool
  deriving Repr, DecidableEq

/-- Events emitted by handleMessage that the claims observe. -/
inductive EmittedEvent where
  | streamEvent (key : String) (payload : DataStreamPayload)
  | disconnectedEvent (info : DisconnectInfo)
  deriving Repr, DecidableEq

/-- The cloud-to-TPA messages whose handleMessage branches the claims are
about. -/
inductive CloudMsg where
  | dataStream (m : DataStreamMessage)
  | appStopped (reason : Option String)
  deriving Repr, DecidableEq

/-- Observable outcome of one handleMessage dispatch. -/
structure HandleMessageResult where
  events : List EmittedEvent
  reconnectAttemptsAfter : Nat
  reconnectInitiated : Bool
  deriving Repr, DecidableEq

/-- TpaSession.handleMessage on the data_stream and app_stopped branches:
a data_stream event is re-keyed by payload language and emitted only when
the subscription set holds a truthy effective key; app_stopped emits a
disconnected event with code 1000 and wasClean true, its reason the
defaulted message reason (message.reason falling back to unknown when
absent or empty) prefixed with App stopped:, and resets reconnectAttempts
to 0.  No branch of handleMessage calls handleReconnection. -/
def handleMessage (subs : List String) (reconnectAttempts : Nat) :
    CloudMsg → HandleMessageResult
  | .dataStream m =>
      let key := effectiveStreamType m
      { events :=
          if key ≠ "" ∧ SetHas subs key then [.streamEvent key m.data] else [],
        reconnectAttemptsAfter := reconnectAttempts,
        reconnectInitiated := false }
  | .appStopped reason =>
      let r := match reason with
        | some s => if s = "" then "unknown" else s
        | none => "unknown"
      { events := [.disconnectedEvent
          { code := 1000, reason := "App stopped: " ++ r,
            wasClean := true, permanent := false }],
        reconnectAttemptsAfter := 0,
        reconnectInitiated := false }

/-- A JSON value as produced by JSON.parse. -/
inductive Json where
  | obj (fields : List (String × Json))
  | arr (items : List Json)
  | str (s : String)
  | num (n : Int)
  | boolean (b : Bool)
  | null

/-- The schema check of the messageHandler: message is truthy, of object
type, and has a type property.  Only an object with a type field passes;
null, arrays, numbers, strings and booleans are all rejected. -/
def jsonHasType : Json → Bool
  | .obj fields => fields.any (fun f => f.fst = "type")
  | _ => false

/-- The messageHandler test jsonData.trim() === empty string: true exactly
when every character of the text is whitespace. -/
def jsTrimEmpty (s : String) : Bool :=
  s.toList.all (fun c => c.isWhitespace)

/-- An inbound WebSocket frame as seen by the messageHandler: a binary
buffer, a bare ArrayBuffer, or text (a string or a non-binary buffer
decoded as utf8). -/
inductive Frame where
  | binaryFrame (bytes : List Nat)
  | arrayBufferFrame
  | textFrame (s : String)

/-- Observable outcome of the messageHandler on one frame. -/
structure MessageHandlerResult where
  emittedError : Bool
  dispatched : Bool
  closedConnection : Bool
  threw : Bool
  deriving Repr, DecidableEq

/-- The messageHandler installed in TpaSession.connect, with JSON.parse
abstracted as a function returning none when parsing throws: an empty
binary buffer emits an error event; a non-empty one is dispatched as an
audio chunk; an ArrayBuffer is silently ignored; empty or whitespace text
emits an error; unparseable text emits an error; parsed JSON without a
type property emits an error; otherwise the message is dispatched to
handleMessage.  Every branch returns normally, closes nothing and throws
nothing. -/
def messageHandler (parse : String → Option Json) : Frame → MessageHandlerResult
  | .binaryFrame bytes =>
      if bytes.length = 0 then
        { emittedError := true, dispatched := false, closedConnection := false, threw := false }
      else
        { emittedError := false, dispatched := true, closedConnection := false, threw := false }
  | .arrayBufferFrame =>
      { emittedError := false, dispatched := false, closedConnection := false, threw := false }
  | .textFrame s =>
      if jsTrimEmpty s then
        { emittedError := true, dispatched := false, closedConnection := false, threw := false }
      else
        match parse s with
        | none =>
            { emittedError := true, dispatched := false, closedConnection := false, threw := false }
        | some j =>
            if jsonHasType j then
              { emittedError := false, dispatched := true, closedConnection := false, threw := false }
            else
              { emittedError := true, dispatched := false, closedConnection := false, threw := false }

/-- Observable outcome of TpaSession.send. -/
structure SendResult where
  wroteToSocket : Bool
  threwToCaller : Bool
  emittedError : Bool
  deriving Repr, DecidableEq

/-- TpaSession.send: throws when the WebSocket is null (no readyState),
when its readyState is not OPEN (1), or when the message lacks a type
property; otherwise serializes and writes to the socket.  Every thrown
error is caught, logged, emitted as an error event and then re-thrown to
the caller. -/
def send (wsReadyState : Option Nat) (msgHasType : Bool) : SendResult :=
  match wsReadyState with
  | none => { wroteToSocket := false, threwToCaller := true, emittedError := true }
  | some rs =>
      if rs ≠ 1 then
        { wroteToSocket := false, threwToCaller := true, emittedError := true }
      else if !msgHasType then
        { wroteToSocket := false, threwToCaller := true, emittedError := true }
      else
        { wroteToSocket := true, threwToCaller := false, emittedError := false }

/-- TpaSession.updateSubscriptionsFromSettings: clears the subscription set
and adds, in order, each stream returned by the settings handler; the
result does not depend on the previous set (replace, not merge). -/
def updateSubscriptionsFromSettings (newSubscriptions : List String) : List String :=
  newSubscriptions.foldl SetAdd []

end TpaSession

namespace SubscriptionRegistry

/-- Modelled from the spec: the cloud SubscriptionRegistry, whose
implementation is not under src/; a mapping from (sessionId, packageName)
to that TPA's stream subscription list. -/
def Registry := String → String → List String

/-- Modelled from the spec: setSubscriptions(sessionId, packageName,
streams) replaces (not merges) the TPA's subscription set atomically. -/
def setSubscriptions (r : Registry) (sessionId packageName : String)
    (streams : List String) : Registry :=
  fun s p =>
    if s = sessionId then
      if p = packageName then streams else r s p
    else r s p

/-- Modelled from the spec: a package is a subscriber for a stream type in
a session when its subscription list holds that stream. -/
def isSubscriber (r : Registry) (sessionId streamType packageName : String) : Bool :=
  streamType ∈ r sessionId packageName

end SubscriptionRegistry

/-- A user session as the cloud session service keeps it (UserSession of
the architecture document): TPA connections are a map packageName to
connection id, subscriptions a map packageName to stream list. -/
structure UserSession where
  sessionId : String
  userId : String
  startTime : Nat
  glassesConnection : Option Nat
  disconnectedAt : Option Nat
  activeAppSessions : List String
  loadingApps : List String
  subscriptions : List (String × List String)
  appConnections : List (String × Nat)
  deriving Repr, DecidableEq

namespace UserSessionManager

/-- Modelled from the spec: the default five-minute reconnection grace
period, in milliseconds. -/
def RECONNECT_GRACE_PERIOD_MS : Nat := 300000

/-- Modelled from the spec: the resume path of
UserSessionManager.createOrResume, whose implementation is not under src/;
when the session is DISCONNECTED (disconnectedAt set) and within the grace
period, the session is rebound to the new glasses socket and disconnectedAt
is cleared; every other field, including appConnections, is untouched.
Outside that case this path does not resume. -/
def handleGlassesReconnect (sess : UserSession) (now gracePeriodMs newSocket : Nat) :
    Option UserSession :=
  match sess.disconnectedAt with
  | none => none
  | some t =>
      if now - t ≤ gracePeriodMs then
        some { sess with glassesConnection := some newSocket, disconnectedAt := none }
      else none

end UserSessionManager

namespace User

/-- An entry of the installedApps array of the user document. -/
structure InstalledApp where
  packageName : String
  installedDate : Nat
  deriving Repr, DecidableEq

/-- The fields of the user document (cloud/src/models/user.model.ts) the
claims are about. -/
structure UserDoc where
  email : String
  runningApps : List String
  installedApps : List InstalledApp
  deriving Repr, DecidableEq

/-- UserSchema.methods.isAppInstalled: some entry has the package name. -/
def isAppInstalled (u : UserDoc) (packageName : String) : Bool :=
  u.installedApps.any (fun a => a.packageName = packageName)

/-- UserSchema.methods.installApp: pushes a new entry only when the package
is not already installed. -/
def installApp (u : UserDoc) (packageName : String) (now : Nat) : UserDoc :=
  if isAppInstalled u packageName then u
  else { u with installedApps :=
          u.installedApps ++ [{ packageName := packageName, installedDate := now }] }

/-- The UserSchema pre-save middleware: lowercases the email and
deduplicates runningApps through a JavaScript Set (first occurrences kept,
insertion order preserved). -/
def preSave (u : UserDoc) : UserDoc :=
  { u with email := u.email.toLower,
           runningApps := u.runningApps.foldl SetAdd [] }

end User

end AugmentOS

namespace AugmentOS

/-- C8 helper: SetAdd keeps the element present. -/
theorem SetHas_SetAdd_self (s : List String) (t : String) :
    SetHas (SetAdd s t) t = true := by
  unfold SetHas SetAdd
  by_cases h : t ∈ s <;> simp [h]

end AugmentOS

namespace AugmentOS

/-- Helper for C1: a run of failing reconnection calls starting at counter a
with room for n more attempts schedules the geometric delays in order. -/
theorem runFailedReconnections_spec (maxA d : Nat) :
    ∀ n a, a + n ≤ maxA →
      TpaSession.runFailedReconnections maxA d n a
        = ((List.range' a n).map (fun k => d * 2 ^ k), a + n) := by
  intro n
  induction n with
  | zero => intro a _; simp [TpaSession.runFailedReconnections, List.range']
  | succ n ih =>
      intro a h
      have ha : ¬ maxA ≤ a := by omega
      have hrec : TpaSession.handleReconnection true true maxA d a false
          = { scheduledDelay := some (d * 2 ^ a), attemptsAfter := a + 1,
              permanentEmitted := decide (maxA ≤ a + 1) } := by
        simp [TpaSession.handleReconnection, ha]
      rw [TpaSession.runFailedReconnections, hrec, ih (a + 1) (by omega)]
      simp [List.range']
      omega

/-- Helper for C1: the sum of the geometric backoff delays. -/
theorem geomDelays_sum (d : Nat) :
    ∀ n, (((List.range n).map (fun k => d * 2 ^ k)).sum) = d * (2 ^ n - 1) := by
  intro n
  induction n with
  | zero => simp
  | succ n ih =>
      rw [List.range_succ, List.map_append, List.sum_append, ih]
      have h1 : 1 ≤ 2 ^ n := Nat.one_le_two_pow
      simp [pow_succ]
      calc d * (2 ^ n - 1) + d * 2 ^ n = d * (2 ^ n - 1 + 2 ^ n) := by ring
        _ = d * (2 ^ n * 2 - 1) := by congr 1; omega

end AugmentOS

/-- C1: in a failed-reconnection run with base delay d starting from a zero
attempt counter, the k-th of the maxAttempts calls schedules a delay of
d * 2 ^ (k - 1), the total scheduled delay is d * (2 ^ maxAttempts - 1)
= d * (2 ^ 0 + ... + 2 ^ (maxAttempts - 1)), the counter ends at
maxAttempts, and once reconnectAttempts has reached maxAttempts a further
handleReconnection call emits the permanent disconnected event and
schedules no reconnection timer; the final failing call of the run itself
also emits the permanent event. -/
theorem claim_C1_reconnect_backoff_run (d maxA m : Nat) (b : Bool) :
    (AugmentOS.TpaSession.runFailedReconnections maxA d maxA 0).1
      = (List.range maxA).map (fun k => d * 2 ^ k)
    ∧ ((AugmentOS.TpaSession.runFailedReconnections maxA d maxA 0).1).sum
      = d * (2 ^ maxA - 1)
    ∧ (AugmentOS.TpaSession.runFailedReconnections maxA d maxA 0).2 = maxA
    ∧ AugmentOS.TpaSession.handleReconnection true true maxA d maxA b
      = { scheduledDelay := none, attemptsAfter := maxA, permanentEmitted := true }
    ∧ AugmentOS.TpaSession.handleReconnection true true (m + 1) d m false
      = { scheduledDelay := some (d * 2 ^ m), attemptsAfter := m + 1,
          permanentEmitted := true } := by
  have hrun := AugmentOS.runFailedReconnections_spec maxA d maxA 0 (by omega)
  refine ⟨?_, ?_, ?_, ?_, ?_⟩
  · rw [hrun]; rw [← List.range_eq_range']
  · rw [hrun, ← List.range_eq_range']; exact AugmentOS.geomDelays_sum d maxA
  · rw [hrun]; simp
  · simp [AugmentOS.TpaSession.handleReconnection]
  · simp [AugmentOS.TpaSession.handleReconnection]

namespace AugmentOS

/-- Helper for C3: a language-parameterized transcription key differs from
the base key and from the empty string (their lengths differ). -/
theorem transcriptionStream_ne (lang : String) :
    TpaSession.createTranscriptionStream lang ≠ "transcription"
    ∧ TpaSession.createTranscriptionStream lang ≠ "" := by
  have h14 : ("transcription:" : String).length = 14 := by decide
  constructor
  · intro h
    have hl := congrArg String.length h
    rw [TpaSession.createTranscriptionStream, String.length_append, h14] at hl
    have h13 : ("transcription" : String).length = 13 := by decide
    rw [h13] at hl
    omega
  · intro h
    have hl := congrArg String.length h
    rw [TpaSession.createTranscriptionStream, String.length_append, h14] at hl
    have h0 : ("" : String).length = 0 := by decide
    rw [h0] at hl
    omega

end AugmentOS

/-- C3: a data_stream message whose transcription payload carries a
transcribeLanguage (a truthy, that is non-empty, language, matching the
if-check of the source) is dispatched under the language-parameterized key
transcription:lang; it is emitted exactly when the subscription set holds
that exact key, a set holding only the base type transcription receives
nothing for it, and a set holding only the parameterized key receives
nothing for an unparameterized transcription event. -/
theorem claim_C3_language_stream_exclusivity (lang : String) (subs : List String)
    (m mU : AugmentOS.TpaSession.DataStreamMessage) (att : Nat)
    (hm : m.streamType = "transcription")
    (hl : m.data.transcribeLanguage = some lang)
    (hlang : lang ≠ "")
    (hmU : mU.streamType = "transcription")
    (hlU : mU.data.transcribeLanguage = none) :
    AugmentOS.TpaSession.effectiveStreamType m = "transcription:" ++ lang
    ∧ ((AugmentOS.TpaSession.handleMessage subs att (.dataStream m)).events
        = [.streamEvent ("transcription:" ++ lang) m.data]
        ↔ ("transcription:" ++ lang) ∈ subs)
    ∧ (AugmentOS.TpaSession.handleMessage ["transcription"] att (.dataStream m)).events = []
    ∧ (AugmentOS.TpaSession.handleMessage ["transcription:" ++ lang] att
        (.dataStream mU)).events = [] := by
  have hne := AugmentOS.transcriptionStream_ne lang
  have hkey : AugmentOS.TpaSession.effectiveStreamType m = "transcription:" ++ lang := by
    simp [AugmentOS.TpaSession.effectiveStreamType, hm, hl, hlang,
      AugmentOS.TpaSession.createTranscriptionStream]
  have hkeyU : AugmentOS.TpaSession.effectiveStreamType mU = "transcription" := by
    simp [AugmentOS.TpaSession.effectiveStreamType, hmU, hlU]
  rw [AugmentOS.TpaSession.createTranscriptionStream] at hne
  refine ⟨hkey, ?_, ?_, ?_⟩
  · simp only [AugmentOS.TpaSession.handleMessage, hkey, AugmentOS.SetHas]
    by_cases hmem : ("transcription:" ++ lang) ∈ subs
    · simp [hmem, hne.2]
    · simp [hmem, hne.2]
  · simp [AugmentOS.TpaSession.handleMessage, hkey, AugmentOS.SetHas, hne.1]
  · have hsym : ¬ ("transcription" = "transcription:" ++ lang) := fun h => hne.1 h.symm
    simp [AugmentOS.TpaSession.handleMessage, hkeyU, AugmentOS.SetHas, hsym]

/-- C3 witness: the exclusivity holds at a concrete en-US transcription
event and concrete subscription sets. -/
theorem claim_C3_witness :
    AugmentOS.TpaSession.effectiveStreamType
        ⟨"transcription", ⟨some "en-US", none⟩⟩ = "transcription:" ++ "en-US"
    ∧ ((AugmentOS.TpaSession.handleMessage ["transcription:en-US"] 0
          (.dataStream ⟨"transcription", ⟨some "en-US", none⟩⟩)).events
        = [.streamEvent ("transcription:" ++ "en-US") ⟨some "en-US", none⟩]
        ↔ ("transcription:" ++ "en-US") ∈ ["transcription:en-US"])
    ∧ (AugmentOS.TpaSession.handleMessage ["transcription"] 0
        (.dataStream ⟨"transcription", ⟨some "en-US", none⟩⟩)).events = []
    ∧ (AugmentOS.TpaSession.handleMessage ["transcription:" ++ "en-US"] 0
        (.dataStream ⟨"transcription", ⟨none, none⟩⟩)).events = [] :=
  claim_C3_language_stream_exclusivity "en-US" ["transcription:en-US"]
    ⟨"transcription", ⟨some "en-US", none⟩⟩ ⟨"transcription", ⟨none, none⟩⟩ 0
    rfl rfl (by decide) rfl rfl

/-- C9: an app_stopped message resets the reconnection attempt counter to
zero, emits a single disconnected event with code 1000 and wasClean true
(its reason the message reason defaulted to unknown when absent or empty,
prefixed App stopped:), and initiates no reconnection attempt, for every
current counter value and every optional message reason. -/
theorem claim_C9_app_stopped (subs : List String) (att : Nat)
    (reason : Option String) :
    (AugmentOS.TpaSession.handleMessage subs att (.appStopped reason)).reconnectAttemptsAfter = 0
    ∧ (∃ info,
        (AugmentOS.TpaSession.handleMessage subs att (.appStopped reason)).events
          = [.disconnectedEvent info]
        ∧ info.code = 1000 ∧ info.wasClean = true ∧ info.permanent = false)
    ∧ (AugmentOS.TpaSession.handleMessage subs att (.appStopped reason)).reconnectInitiated
      = false
    ∧ (AugmentOS.TpaSession.handleMessage subs att (.appStopped none)).events
      = [.disconnectedEvent
          { code := 1000, reason := "App stopped: unknown",
            wasClean := true, permanent := false }]
    ∧ (AugmentOS.TpaSession.handleMessage subs att (.appStopped (some ""))).events
      = [.disconnectedEvent
          { code := 1000, reason := "App stopped: unknown",
            wasClean := true, permanent := false }]
    ∧ (AugmentOS.TpaSession.handleMessage subs att
        (.appStopped (some "user request"))).events
      = [.disconnectedEvent
          { code := 1000, reason := "App stopped: user request",
            wasClean := true, permanent := false }] :=
  ⟨rfl, ⟨_, rfl, rfl, rfl, rfl⟩, rfl, rfl, by simp [AugmentOS.TpaSession.handleMessage], rfl⟩

/-- C6: the inbound messageHandler is total over arbitrary frames: no frame
makes it throw or close the connection, and every malformed frame (empty
binary, empty or whitespace text, unparseable text, JSON without a type
property) is dropped with an error event and never dispatched. -/
theorem claim_C6_message_handler_total
    (parse : String → Option AugmentOS.TpaSession.Json)
    (f : AugmentOS.TpaSession.Frame)
    (sEmpty sBad sNoType : String) (j : AugmentOS.TpaSession.Json)
    (h1 : AugmentOS.TpaSession.jsTrimEmpty sEmpty = true)
    (h2 : AugmentOS.TpaSession.jsTrimEmpty sBad = false) (h2p : parse sBad = none)
    (h3 : AugmentOS.TpaSession.jsTrimEmpty sNoType = false) (h3p : parse sNoType = some j)
    (h3t : AugmentOS.TpaSession.jsonHasType j = false) :
    ((AugmentOS.TpaSession.messageHandler parse f).threw = false
      ∧ (AugmentOS.TpaSession.messageHandler parse f).closedConnection = false)
    ∧ AugmentOS.TpaSession.messageHandler parse (.textFrame sEmpty)
      = { emittedError := true, dispatched := false, closedConnection := false, threw := false }
    ∧ AugmentOS.TpaSession.messageHandler parse (.textFrame sBad)
      = { emittedError := true, dispatched := false, closedConnection := false, threw := false }
    ∧ AugmentOS.TpaSession.messageHandler parse (.textFrame sNoType)
      = { emittedError := true, dispatched := false, closedConnection := false, threw := false }
    ∧ AugmentOS.TpaSession.messageHandler parse (.binaryFrame [])
      = { emittedError := true, dispatched := false, closedConnection := false, threw := false } := by
  refine ⟨?_, ?_, ?_, ?_, ?_⟩
  · cases f with
    | binaryFrame bytes =>
        by_cases hb : bytes.length = 0 <;>
          simp [AugmentOS.TpaSession.messageHandler, hb]
    | arrayBufferFrame => simp [AugmentOS.TpaSession.messageHandler]
    | textFrame s =>
        by_cases hs : AugmentOS.TpaSession.jsTrimEmpty s = true
        · simp [AugmentOS.TpaSession.messageHandler, hs]
        · cases hp : parse s with
          | none => simp [AugmentOS.TpaSession.messageHandler, hs, hp]
          | some j2 =>
              by_cases hj : AugmentOS.TpaSession.jsonHasType j2 <;>
                simp [AugmentOS.TpaSession.messageHandler, hs, hp, hj]
  · simp [AugmentOS.TpaSession.messageHandler, h1]
  · simp [AugmentOS.TpaSession.messageHandler, h2, h2p]
  · simp [AugmentOS.TpaSession.messageHandler, h3, h3p, h3t]
  · simp [AugmentOS.TpaSession.messageHandler]

/-- C6 witness: the handler outcomes at a concrete parse function and
concrete malformed frames. -/
theorem claim_C6_witness :
    ((AugmentOS.TpaSession.messageHandler
        (fun s => if s = "x" then some (AugmentOS.TpaSession.Json.num 0) else none)
        .arrayBufferFrame).threw = false
      ∧ (AugmentOS.TpaSession.messageHandler
        (fun s => if s = "x" then some (AugmentOS.TpaSession.Json.num 0) else none)
        .arrayBufferFrame).closedConnection = false)
    ∧ AugmentOS.TpaSession.messageHandler
        (fun s => if s = "x" then some (AugmentOS.TpaSession.Json.num 0) else none)
        (.textFrame " ")
      = { emittedError := true, dispatched := false, closedConnection := false, threw := false }
    ∧ AugmentOS.TpaSession.messageHandler
        (fun s => if s = "x" then some (AugmentOS.TpaSession.Json.num 0) else none)
        (.textFrame "not json")
      = { emittedError := true, dispatched := false, closedConnection := false, threw := false }
    ∧ AugmentOS.TpaSession.messageHandler
        (fun s => if s = "x" then some (AugmentOS.TpaSession.Json.num 0) else none)
        (.textFrame "x")
      = { emittedError := true, dispatched := false, closedConnection := false, threw := false }
    ∧ AugmentOS.TpaSession.messageHandler
        (fun s => if s = "x" then some (AugmentOS.TpaSession.Json.num 0) else none)
        (.binaryFrame [])
      = { emittedError := true, dispatched := false, closedConnection := false, threw := false } :=
  claim_C6_message_handler_total
    (fun s => if s = "x" then some (AugmentOS.TpaSession.Json.num 0) else none)
    .arrayBufferFrame " " "not json" "x" (AugmentOS.TpaSession.Json.num 0)
    (by decide) (by decide) rfl (by decide) rfl rfl

/-- C7 counterexample: a send performed while the WebSocket is null, or in
a non-OPEN readyState, does throw to the caller, contradicting the claim
that such sends complete without raising. -/
theorem claim_C7_counterexample :
    (AugmentOS.TpaSession.send none true).threwToCaller = true
    ∧ (AugmentOS.TpaSession.send (some 3) true).threwToCaller = true := by
  exact ⟨rfl, by decide⟩

/-- C7 amended: when the WebSocket is null or its readyState is not OPEN,
no write is attempted against the socket, but the send does not complete
silently: it emits an error event and re-throws the error to the caller. -/
theorem claim_C7_send_guard_amended (wsReadyState : Option Nat) (msgHasType : Bool)
    (h : wsReadyState ≠ some 1) :
    (AugmentOS.TpaSession.send wsReadyState msgHasType).wroteToSocket = false
    ∧ (AugmentOS.TpaSession.send wsReadyState msgHasType).threwToCaller = true
    ∧ (AugmentOS.TpaSession.send wsReadyState msgHasType).emittedError = true := by
  cases wsReadyState with
  | none => exact ⟨rfl, rfl, rfl⟩
  | some rs =>
      have hrs : rs ≠ 1 := fun he => h (by rw [he])
      simp [AugmentOS.TpaSession.send, hrs]

/-- C7 amended witness: the guarded send at a null WebSocket. -/
theorem claim_C7_amended_witness :
    (AugmentOS.TpaSession.send none true).wroteToSocket = false
    ∧ (AugmentOS.TpaSession.send none true).threwToCaller = true
    ∧ (AugmentOS.TpaSession.send none true).emittedError = true :=
  claim_C7_send_guard_amended none true (by decide)

/-- C8: the subscription set behaves as a set with idempotent updates:
subscribing twice equals subscribing once, unsubscribing after subscribing
leaves a set not containing the type, and neither call affects membership
of any other stream type. -/
theorem claim_C8_subscribe_set_semantics (subs : List String) (t u : String)
    (h : u ≠ t) :
    AugmentOS.TpaSession.subscribe (AugmentOS.TpaSession.subscribe subs t) t
      = AugmentOS.TpaSession.subscribe subs t
    ∧ AugmentOS.SetHas
        (AugmentOS.TpaSession.unsubscribe (AugmentOS.TpaSession.subscribe subs t) t) t = false
    ∧ AugmentOS.SetHas (AugmentOS.TpaSession.subscribe subs t) u = AugmentOS.SetHas subs u
    ∧ AugmentOS.SetHas (AugmentOS.TpaSession.unsubscribe subs t) u = AugmentOS.SetHas subs u := by
  unfold AugmentOS.TpaSession.subscribe AugmentOS.TpaSession.unsubscribe
  refine ⟨?_, ?_, ?_, ?_⟩
  · unfold AugmentOS.SetAdd
    by_cases hm : t ∈ subs <;> simp [hm]
  · unfold AugmentOS.SetAdd AugmentOS.SetDelete AugmentOS.SetHas
    by_cases hm : t ∈ subs <;> simp [hm]
  · unfold AugmentOS.SetAdd AugmentOS.SetHas
    by_cases hm : t ∈ subs <;> simp [hm, h]
  · unfold AugmentOS.SetDelete AugmentOS.SetHas
    simp [h]

/-- C8 witness: the sets behave as claimed at a concrete instance. -/
theorem claim_C8_witness :
    AugmentOS.TpaSession.subscribe
        (AugmentOS.TpaSession.subscribe ["head_position"] "transcription") "transcription"
      = AugmentOS.TpaSession.subscribe ["head_position"] "transcription"
    ∧ AugmentOS.SetHas
        (AugmentOS.TpaSession.unsubscribe
          (AugmentOS.TpaSession.subscribe ["head_position"] "transcription") "transcription")
        "transcription" = false
    ∧ AugmentOS.SetHas (AugmentOS.TpaSession.subscribe ["head_position"] "transcription")
        "head_position"
      = AugmentOS.SetHas ["head_position"] "head_position"
    ∧ AugmentOS.SetHas (AugmentOS.TpaSession.unsubscribe ["head_position"] "transcription")
        "head_position"
      = AugmentOS.SetHas ["head_position"] "head_position" :=
  claim_C8_subscribe_set_semantics ["head_position"] "transcription" "head_position"
    (by decide)

/-- C4: setting a TPA's subscriptions replaces the previous set: after
setSubscriptions(s, p, [A, B]) followed by setSubscriptions(s, p, []), the
package p holds zero subscriptions and is a subscriber for neither A nor
B; the SDK-side replace operation likewise yields the empty set from an
empty handler result. -/
theorem claim_C4_subscription_replace (r : AugmentOS.SubscriptionRegistry.Registry)
    (s p A B : String) :
    AugmentOS.SubscriptionRegistry.setSubscriptions
        (AugmentOS.SubscriptionRegistry.setSubscriptions r s p [A, B]) s p [] s p = []
    ∧ AugmentOS.SubscriptionRegistry.isSubscriber
        (AugmentOS.SubscriptionRegistry.setSubscriptions
          (AugmentOS.SubscriptionRegistry.setSubscriptions r s p [A, B]) s p []) s A p = false
    ∧ AugmentOS.SubscriptionRegistry.isSubscriber
        (AugmentOS.SubscriptionRegistry.setSubscriptions
          (AugmentOS.SubscriptionRegistry.setSubscriptions r s p [A, B]) s p []) s B p = false
    ∧ AugmentOS.TpaSession.updateSubscriptionsFromSettings [] = [] := by
  refine ⟨?_, ?_, ?_, rfl⟩ <;>
    simp [AugmentOS.SubscriptionRegistry.setSubscriptions,
      AugmentOS.SubscriptionRegistry.isSubscriber]

/-- C5: a glasses reconnect within the grace period resumes a DISCONNECTED
session keeping the same sessionId, activeAppSessions, subscriptions and
appConnections (no TpaConnection torn down or recreated); only
glassesConnection and disconnectedAt change. -/
theorem claim_C5_grace_period_resume (sess : AugmentOS.UserSession)
    (t now newSocket : Nat)
    (h1 : sess.disconnectedAt = some t)
    (h2 : now - t ≤ AugmentOS.UserSessionManager.RECONNECT_GRACE_PERIOD_MS) :
    ∃ resumed, AugmentOS.UserSessionManager.handleGlassesReconnect sess now
        AugmentOS.UserSessionManager.RECONNECT_GRACE_PERIOD_MS newSocket = some resumed
      ∧ resumed.sessionId = sess.sessionId
      ∧ resumed.userId = sess.userId
      ∧ resumed.startTime = sess.startTime
      ∧ resumed.activeAppSessions = sess.activeAppSessions
      ∧ resumed.loadingApps = sess.loadingApps
      ∧ resumed.subscriptions = sess.subscriptions
      ∧ resumed.appConnections = sess.appConnections
      ∧ resumed.glassesConnection = some newSocket
      ∧ resumed.disconnectedAt = none := by
  refine ⟨{ sess with glassesConnection := some newSocket, disconnectedAt := none },
    ?_, rfl, rfl, rfl, rfl, rfl, rfl, rfl, rfl, rfl⟩
  simp [AugmentOS.UserSessionManager.handleGlassesReconnect, h1, h2]

/-- C5 witness: a concrete session with one running app and one TPA
connection, disconnected at time 0, resumed at four minutes. -/
theorem claim_C5_witness :
    ∃ resumed, AugmentOS.UserSessionManager.handleGlassesReconnect
        { sessionId := "S1", userId := "u", startTime := 0,
          glassesConnection := none, disconnectedAt := some 0,
          activeAppSessions := ["com.acme.app"], loadingApps := [],
          subscriptions := [("com.acme.app", ["transcription:en-US"])],
          appConnections := [("com.acme.app", 7)] } 240000
        AugmentOS.UserSessionManager.RECONNECT_GRACE_PERIOD_MS 9 = some resumed
      ∧ resumed.sessionId = "S1"
      ∧ resumed.userId = "u"
      ∧ resumed.startTime = 0
      ∧ resumed.activeAppSessions = ["com.acme.app"]
      ∧ resumed.loadingApps = []
      ∧ resumed.subscriptions = [("com.acme.app", ["transcription:en-US"])]
      ∧ resumed.appConnections = [("com.acme.app", 7)]
      ∧ resumed.glassesConnection = some 9
      ∧ resumed.disconnectedAt = none :=
  claim_C5_grace_period_resume
    { sessionId := "S1", userId := "u", startTime := 0,
      glassesConnection := none, disconnectedAt := some 0,
      activeAppSessions := ["com.acme.app"], loadingApps := [],
      subscriptions := [("com.acme.app", ["transcription:en-US"])],
      appConnections := [("com.acme.app", 7)] } 0 240000 9 rfl (by decide)

namespace AugmentOS

/-- Helper for C10: a fold of SetAdd preserves duplicate-freedom. -/
theorem foldl_SetAdd_nodup (l : List String) :
    ∀ acc : List String, acc.Nodup → (l.foldl SetAdd acc).Nodup := by
  induction l with
  | nil => intro acc h; simpa using h
  | cons x xs ih =>
      intro acc h
      rw [List.foldl_cons]
      apply ih
      unfold SetAdd
      by_cases hx : x ∈ acc
      · simpa [hx] using h
      · simp only [hx, if_false]
        rw [List.nodup_append]
        exact ⟨h, List.nodup_singleton x, by simpa using hx⟩

/-- Helper for C10: after installApp the package is installed. -/
theorem isAppInstalled_installApp (u : User.UserDoc) (p : String) (t : Nat) :
    User.isAppInstalled (User.installApp u p t) p = true := by
  rw [User.installApp]
  by_cases hi : User.isAppInstalled u p = true
  · rw [if_pos hi]; exact hi
  · rw [if_neg hi]
    unfold User.isAppInstalled
    rw [List.any_append]
    simp

end AugmentOS

/-- C10: the user record keeps its app lists duplicate-free: installApp is
idempotent, it preserves uniqueness of package names in installedApps, and
the pre-save middleware leaves runningApps duplicate-free and the email
lowercased. -/
theorem claim_C10_user_model_invariants (u : AugmentOS.User.UserDoc) (p : String)
    (t1 t2 : Nat)
    (h : (u.installedApps.map AugmentOS.User.InstalledApp.packageName).Nodup) :
    AugmentOS.User.installApp (AugmentOS.User.installApp u p t1) p t2
      = AugmentOS.User.installApp u p t1
    ∧ (((AugmentOS.User.installApp u p t1).installedApps.map
        AugmentOS.User.InstalledApp.packageName).Nodup)
    ∧ ((AugmentOS.User.preSave u).runningApps.Nodup)
    ∧ (AugmentOS.User.preSave u).email = u.email.toLower := by
  refine ⟨?_, ?_, ?_, rfl⟩
  · rw [AugmentOS.User.installApp,
      if_pos (AugmentOS.isAppInstalled_installApp u p t1)]
  · rw [AugmentOS.User.installApp]
    by_cases hi : AugmentOS.User.isAppInstalled u p = true
    · rw [if_pos hi]; exact h
    · rw [if_neg hi]
      simp only [List.map_append, List.map_cons, List.map_nil]
      rw [List.nodup_append]
      refine ⟨h, List.nodup_singleton _, ?_⟩
      intro a ha hmem
      rw [List.mem_singleton] at hmem
      rcases List.mem_map.mp ha with ⟨b, hb, hbp⟩
      apply hi
      unfold AugmentOS.User.isAppInstalled
      rw [List.any_eq_true]
      exact ⟨b, hb, by simp [hbp, hmem]⟩
  · exact AugmentOS.foldl_SetAdd_nodup u.runningApps [] List.nodup_nil

/-- C10 witness: the invariants at a concrete user document that holds a
duplicate running app and one installed app. -/
theorem claim_C10_witness :
    AugmentOS.User.installApp
        (AugmentOS.User.installApp
          { email := "U@Example.com", runningApps := ["a", "a", "b"],
            installedApps := [{ packageName := "pkg", installedDate := 5 }] }
          "pkg2" 6) "pkg2" 7
      = AugmentOS.User.installApp
          { email := "U@Example.com", runningApps := ["a", "a", "b"],
            installedApps := [{ packageName := "pkg", installedDate := 5 }] }
          "pkg2" 6
    ∧ (((AugmentOS.User.installApp
          { email := "U@Example.com", runningApps := ["a", "a", "b"],
            installedApps := [{ packageName := "pkg", installedDate := 5 }] }
          "pkg2" 6).installedApps.map
            AugmentOS.User.InstalledApp.packageName).Nodup)
    ∧ ((AugmentOS.User.preSave
          { email := "U@Example.com", runningApps := ["a", "a", "b"],
            installedApps := [{ packageName := "pkg", installedDate := 5 }] }).runningApps.Nodup)
    ∧ (AugmentOS.User.preSave
          { email := "U@Example.com", runningApps := ["a", "a", "b"],
            installedApps := [{ packageName := "pkg", installedDate := 5 }] }).email
      = ("U@Example.com" : String).toLower :=
  claim_C10_user_model_invariants
    { email := "U@Example.com", runningApps := ["a", "a", "b"],
      installedApps := [{ packageName := "pkg", installedDate := 5 }] }
    "pkg2" 6 7 (by decide)
